import Mathlib

/-!
Verification of the smart-plant monitoring core (src/main.py).

The program is a single polling loop: read a sensor snapshot, evaluate
fixed threshold rules (`send_alerts`), print each produced alert and
publish it to an MQTT topic.  We embed the pure decision logic of
`send_alerts` and the observable effects of one loop-body iteration.

Numeric sensor values are embedded as rationals (ℚ); the float literal
`0.2` of the source is embedded as `1/5`.  Python's `None` for a failed
DHT read becomes `Option ℚ`.  The `print` side effects of a call are
made explicit: `send_alerts` returns the pair
(lines printed by the call itself, the Python return value), where the
return value is `none` when the function falls into the
`return`-without-value branch and `some alerts` when it returns the
accumulated list.
-/

namespace SmartPlant

/-- Process-wide threshold constants of the source
(`MOISTURE_THRESHOLD = 300`, temperature bounds 15 and 30,
light minimum 0.2). -/
structure ThresholdConfig where
  moistureThreshold : ℚ
  tempLow : ℚ
  tempHigh : ℚ
  minLight : ℚ

/-- `MOISTURE_THRESHOLD = 300` from the source. -/
def MOISTURE_THRESHOLD : ℚ := 300

/-- The constants exactly as hard-coded in `src/main.py`. -/
def defaultConfig : ThresholdConfig :=
  { moistureThreshold := MOISTURE_THRESHOLD
    tempLow := 15
    tempHigh := 30
    minLight := 1/5 }

/-- Round a rational to the nearest integer, ties to even: the rounding
mode used by Python's fixed-point float formatting `{x:.2f}`. -/
def roundHalfEven (q : ℚ) : ℤ :=
  let f := ⌊q⌋
  let r := q - (f : ℚ)
  if r < 1/2 then f
  else if 1/2 < r then f + 1
  else if f % 2 = 0 then f else f + 1

/-- Render `n < 100` as exactly two decimal digits (zero padded). -/
def twoDigits (n : ℕ) : String :=
  toString (n / 10 % 10) ++ toString (n % 10)

/-- Fixed-point rendering with two decimals, the embedding of the
f-string conversion `{temperature:.2f}` of the source. -/
def fmt2 (q : ℚ) : String :=
  let n := roundHalfEven (100 * q)
  let sign := if n < 0 then "-" else ""
  let a := n.natAbs
  sign ++ toString (a / 100) ++ "." ++ twoDigits (a % 100)

/-- The soil-moisture alert string of the source. -/
def soilAlertMsg : String := "Soil is too dry. Consider watering the plant."

/-- The low-light alert string of the source. -/
def lightAlertMsg : String := "Plant needs more light."

/-- The diagnostic printed when the DHT read failed. -/
def dhtFailMsg : String := "Failed to retrieve data from DHT sensor"

/-- The temperature alert f-string of the source, for low bound `low`:
`f"Temperature is {'too low' if temperature < 15 else 'too high'}. Current temp: {temperature:.2f} C"`. -/
def tempAlertMsgCfg (low : ℚ) (t : ℚ) : String :=
  "Temperature is " ++ (if t < low then "too low" else "too high")
    ++ ". Current temp: " ++ fmt2 t ++ " C"

/-- Temperature alert with the source's hard-coded low bound 15. -/
def tempAlertMsg (t : ℚ) : String := tempAlertMsgCfg 15 t

/-- Embedding of `send_alerts(humidity, temperature, soil_moisture,
light_intensity)` with the thresholds abstracted into `cfg`.
Result: (lines printed by the call, Python return value).
The source returns `None` (after printing a failure line) when humidity
or temperature is `None`; otherwise it appends to `alerts` one entry per
satisfied threshold rule, in order moisture, temperature, light, and
returns the list. -/
def send_alertsCfg (cfg : ThresholdConfig) (humidity temperature : Option ℚ)
    (soil_moisture light_intensity : ℚ) : List String × Option (List String) :=
  match humidity, temperature with
  | some _, some t =>
      let alerts₁ : List String :=
        if soil_moisture > cfg.moistureThreshold then [soilAlertMsg] else []
      let alerts₂ : List String :=
        if t < cfg.tempLow ∨ t > cfg.tempHigh then [tempAlertMsgCfg cfg.tempLow t] else []
      let alerts₃ : List String :=
        if light_intensity < cfg.minLight then [lightAlertMsg] else []
      ([], some (alerts₁ ++ alerts₂ ++ alerts₃))
  | _, _ => ([dhtFailMsg], none)

/-- `send_alerts` with the source's hard-coded constants. -/
def send_alerts (humidity temperature : Option ℚ)
    (soil_moisture light_intensity : ℚ) : List String × Option (List String) :=
  send_alertsCfg defaultConfig humidity temperature soil_moisture light_intensity

/-- Python truthiness of the `alerts` value in `if alerts:`:
`None` and the empty list are falsy. -/
def truthyAlerts : Option (List String) → Bool
  | none => false
  | some l => !l.isEmpty

/-- One iteration of the body of `main`'s loop, after the sensor read:
call `send_alerts`, and when the result is truthy, for each alert print
it and publish it.  `pubResult` gives the broker outcome of each publish
attempt (the source ignores it).  Result: (all lines printed during the
iteration, the (message, outcome) pairs of the publish attempts). -/
def loopIteration (humidity temperature : Option ℚ) (soil_moisture light_intensity : ℚ)
    (pubResult : String → Bool) : List String × List (String × Bool) :=
  let r := send_alerts humidity temperature soil_moisture light_intensity
  if truthyAlerts r.snd then
    match r.snd with
    | some alerts => (r.fst ++ alerts, alerts.map (fun a => (a, pubResult a)))
    | none => (r.fst, [])
  else (r.fst, [])

/-! ### Helper lemmas -/

/-- On a snapshot with both DHT fields present, `send_alerts` prints
nothing and returns the concatenation of the three rule outputs. -/
lemma send_alerts_some (hv tv sm li : ℚ) :
    send_alerts (some hv) (some tv) sm li =
      ([], some ((if sm > MOISTURE_THRESHOLD then [soilAlertMsg] else []) ++
        (if tv < 15 ∨ tv > 30 then [tempAlertMsg tv] else []) ++
        (if li < 1/5 then [lightAlertMsg] else []))) := rfl

lemma soil_ne_tempMsg (low t : ℚ) : soilAlertMsg ≠ tempAlertMsgCfg low t := by
  intro h
  have hd := congrArg String.data h
  rw [tempAlertMsgCfg] at hd
  simp only [String.data_append] at hd
  rw [soilAlertMsg] at hd
  simp at hd

lemma light_ne_tempMsg (low t : ℚ) : lightAlertMsg ≠ tempAlertMsgCfg low t := by
  intro h
  have hd := congrArg String.data h
  rw [tempAlertMsgCfg] at hd
  simp only [String.data_append] at hd
  rw [lightAlertMsg] at hd
  simp at hd

lemma tempMsg_ne_soil (low t : ℚ) : tempAlertMsgCfg low t ≠ soilAlertMsg :=
  fun h => soil_ne_tempMsg low t h.symm

lemma tempMsg_ne_light (low t : ℚ) : tempAlertMsgCfg low t ≠ lightAlertMsg :=
  fun h => light_ne_tempMsg low t h.symm

lemma soil_ne_light : soilAlertMsg ≠ lightAlertMsg := by decide

lemma light_ne_soil : lightAlertMsg ≠ soilAlertMsg := fun h => soil_ne_light h.symm

/-- The rendered centi-value is within half a unit of the exact one. -/
lemma roundHalfEven_sub_le (q : ℚ) : |((roundHalfEven q : ℤ) : ℚ) - q| ≤ 1/2 := by
  have h0 : ((⌊q⌋ : ℤ) : ℚ) ≤ q := Int.floor_le q
  have h1 : q < (⌊q⌋ : ℤ) + 1 := Int.lt_floor_add_one q
  rw [roundHalfEven]
  split_ifs with ha hb hc
  all_goals push_cast
  all_goals rw [abs_le]
  all_goals constructor <;> linarith


/-- C1 counterexample: on the snapshot of Scenario C
(humidity and temperature absent, soil 999, light 0.01) the return value
of `send_alerts` is `None`, not a one-element alert sequence holding the
diagnostic: the diagnostic is only printed. -/
theorem dht_failure_return_value_cex :
    (send_alerts none none 999 (1/100)).snd = none ∧
    (send_alerts none none 999 (1/100)).snd ≠ some [dhtFailMsg] :=
  ⟨rfl, by simp [send_alerts, send_alertsCfg]⟩

/-- C1 (amended): when temperature or humidity is absent, `send_alerts`
prints exactly one diagnostic line noting the sensor failure and returns
`None` — no alert sequence at all, hence no threshold alerts — for any
soil-moisture and light values. -/
theorem dht_failure_prints_one_diagnostic (humidity temperature : Option ℚ)
    (sm li : ℚ) (h : humidity = none ∨ temperature = none) :
    (send_alerts humidity temperature sm li).fst = [dhtFailMsg] ∧
    (send_alerts humidity temperature sm li).snd = none := by
  rcases h with h | h
  · subst h; exact ⟨rfl, rfl⟩
  · subst h; cases humidity <;> exact ⟨rfl, rfl⟩

theorem dht_failure_prints_one_diagnostic_witness :
    ((none : Option ℚ) = none ∨ (some (45:ℚ)) = none) ∧
    ((send_alerts none (some 45) 999 (1/100)).fst = [dhtFailMsg] ∧
     (send_alerts none (some 45) 999 (1/100)).snd = none) :=
  ⟨Or.inl rfl, dht_failure_prints_one_diagnostic none (some 45) 999 (1/100) (Or.inl rfl)⟩

/-- C2: with both DHT fields present, the returned list holds exactly one
soil-moisture alert when `soil_moisture > 300` and none otherwise,
whatever the temperature and light values. -/
theorem moisture_alert_exactly_when_above_threshold (hv tv sm li : ℚ) :
    ∃ alerts, (send_alerts (some hv) (some tv) sm li).snd = some alerts ∧
      alerts.count soilAlertMsg = if sm > 300 then 1 else 0 := by
  refine ⟨_, congrArg Prod.snd (send_alerts_some hv tv sm li), ?_⟩
  have : MOISTURE_THRESHOLD = 300 := rfl
  rw [this]
  split_ifs with h1 h2 h3 h3 h2 h3 h3 <;>
  simp [List.count_append, List.count_cons, soil_ne_tempMsg, soil_ne_light, tempAlertMsg]

/-- C4: with both DHT fields present, the returned list holds exactly one
light alert when `light_intensity < 0.2` and none otherwise. -/
theorem light_alert_exactly_when_below_min (hv tv sm li : ℚ) :
    ∃ alerts, (send_alerts (some hv) (some tv) sm li).snd = some alerts ∧
      alerts.count lightAlertMsg = if li < 1/5 then 1 else 0 := by
  refine ⟨_, congrArg Prod.snd (send_alerts_some hv tv sm li), ?_⟩
  split_ifs with h1 h2 h3 h3 h2 h3 h3 <;>
  simp [List.count_append, List.count_cons, light_ne_tempMsg, light_ne_soil, tempAlertMsg]

/-- C5: with both DHT fields present and every reading within bounds
(soil not above 300, temperature within [15, 30], light not below 0.2),
`send_alerts` returns the empty alert list. -/
theorem in_bounds_zero_alerts (hv tv sm li : ℚ) (h1 : ¬ sm > 300)
    (h2 : 15 ≤ tv) (h3 : tv ≤ 30) (h4 : ¬ li < 1/5) :
    (send_alerts (some hv) (some tv) sm li).snd = some [] := by
  have hT : ¬ (tv < 15 ∨ tv > 30) := not_or.mpr ⟨not_lt.mpr h2, not_lt.mpr h3⟩
  have h1' : ¬ sm > MOISTURE_THRESHOLD := h1
  rw [send_alerts_some, if_neg h1', if_neg hT, if_neg h4]
  rfl

theorem in_bounds_zero_alerts_witness :
    (¬ (100:ℚ) > 300) ∧ ((15:ℚ) ≤ 22) ∧ ((22:ℚ) ≤ 30) ∧ (¬ (1/2:ℚ) < 1/5) ∧
    (send_alerts (some 45) (some 22) 100 (1/2)).snd = some [] :=
  ⟨by norm_num, by norm_num, by norm_num, by norm_num,
    in_bounds_zero_alerts 45 22 100 (1/2) (by norm_num) (by norm_num) (by norm_num) (by norm_num)⟩


/-- C3: with both DHT fields present and the temperature out of range
(below 15 or above 30), the returned list holds exactly one temperature
alert; it says "too low" below 15 and "too high" above 30 and carries
the measured temperature rendered to two decimals (the rendered
centi-degree value is within 1/2 of the exact one). -/
theorem temperature_alert_out_of_range (hv tv sm li : ℚ)
    (h : tv < 15 ∨ tv > 30) :
    ∃ alerts, (send_alerts (some hv) (some tv) sm li).snd = some alerts ∧
      alerts.count (tempAlertMsg tv) = 1 ∧
      (tv < 15 →
        tempAlertMsg tv = ("Temperature is too low. Current temp: " ++ fmt2 tv) ++ " C") ∧
      (tv > 30 →
        tempAlertMsg tv = ("Temperature is too high. Current temp: " ++ fmt2 tv) ++ " C") ∧
      |((roundHalfEven (100 * tv) : ℤ) : ℚ) - 100 * tv| ≤ 1/2 := by
  refine ⟨_, congrArg Prod.snd (send_alerts_some hv tv sm li), ?_, ?_, ?_,
    roundHalfEven_sub_le (100 * tv)⟩
  · rw [if_pos h]
    split_ifs with h1 h3 h3 <;>
    simp [List.count_append, List.count_cons, tempMsg_ne_soil, tempMsg_ne_light,
      tempAlertMsg]
  · intro hlow
    rw [tempAlertMsg, tempAlertMsgCfg, if_pos hlow]
    congr 2
  · intro hhigh
    have hnl : ¬ tv < 15 := by linarith
    rw [tempAlertMsg, tempAlertMsgCfg, if_neg hnl]
    congr 2

theorem temperature_alert_out_of_range_witness :
    ((10:ℚ) < 15 ∨ (10:ℚ) > 30) ∧
    (∃ alerts, (send_alerts (some 50) (some 10) 200 (1/2)).snd = some alerts ∧
      alerts.count (tempAlertMsg 10) = 1 ∧
      ((10:ℚ) < 15 →
        tempAlertMsg 10 = ("Temperature is too low. Current temp: " ++ fmt2 10) ++ " C") ∧
      ((10:ℚ) > 30 →
        tempAlertMsg 10 = ("Temperature is too high. Current temp: " ++ fmt2 10) ++ " C") ∧
      |((roundHalfEven (100 * 10) : ℤ) : ℚ) - 100 * 10| ≤ 1/2) :=
  ⟨Or.inl (by norm_num),
    temperature_alert_out_of_range 50 10 200 (1/2) (Or.inl (by norm_num))⟩

/-- C6: with both DHT fields present the three rules fire independently;
the returned list is a sublist of [moisture, temperature, light] (so the
alerts always appear in that order), each alert is present exactly when
its own condition holds, and on Scenario B's snapshot
(humidity 40, temperature 22, soil 400, light 0.1) the result is the
soil-dry alert followed by the low-light alert. -/
theorem alerts_ordered_and_independent (hv tv sm li : ℚ) :
    ∃ alerts, (send_alerts (some hv) (some tv) sm li).snd = some alerts ∧
      List.Sublist alerts [soilAlertMsg, tempAlertMsg tv, lightAlertMsg] ∧
      (soilAlertMsg ∈ alerts ↔ sm > 300) ∧
      (tempAlertMsg tv ∈ alerts ↔ (tv < 15 ∨ tv > 30)) ∧
      (lightAlertMsg ∈ alerts ↔ li < 1/5) ∧
      (send_alerts (some 40) (some 22) 400 (1/10)).snd =
        some [soilAlertMsg, lightAlertMsg] := by
  refine ⟨_, congrArg Prod.snd (send_alerts_some hv tv sm li), ?_, ?_, ?_, ?_, ?_⟩
  · split_ifs <;> simp
  · have hM : MOISTURE_THRESHOLD = 300 := rfl
    rw [hM]
    split_ifs with h1 h2 h3 h3 h2 h3 h3 <;>
    simp [h1, soil_ne_tempMsg, soil_ne_light, tempAlertMsg]
  · split_ifs with h1 h2 h3 h3 h2 h3 h3 <;>
    simp [h2, tempMsg_ne_soil, tempMsg_ne_light, tempAlertMsg]
  · split_ifs with h1 h2 h3 h3 h2 h3 h3
    all_goals first
      | exact iff_of_true (by simp) h3
      | exact iff_of_false (by simp [light_ne_tempMsg, light_ne_soil, tempAlertMsg]) h3
  · rw [send_alerts_some]
    norm_num [MOISTURE_THRESHOLD]

/-- C7: `send_alerts` is a deterministic pure function of the snapshot
and the threshold configuration: under the same constants, equal inputs
give equal results (both the printed lines and the return value). -/
theorem send_alerts_deterministic (cfg : ThresholdConfig)
    (hum1 temp1 : Option ℚ) (sm1 li1 : ℚ) (hum2 temp2 : Option ℚ) (sm2 li2 : ℚ)
    (eh : hum1 = hum2) (et : temp1 = temp2) (esm : sm1 = sm2) (eli : li1 = li2) :
    send_alertsCfg cfg hum1 temp1 sm1 li1 = send_alertsCfg cfg hum2 temp2 sm2 li2 := by
  rw [eh, et, esm, eli]

theorem send_alerts_deterministic_witness :
    (some (40:ℚ) = some 40) ∧
    send_alertsCfg defaultConfig (some 40) (some 22) 400 (1/10) =
      send_alertsCfg defaultConfig (some 40) (some 22) 400 (1/10) :=
  ⟨rfl, send_alerts_deterministic defaultConfig (some 40) (some 22) 400 (1/10)
    (some 40) (some 22) 400 (1/10) rfl rfl rfl rfl⟩


/-- C8: in a loop iteration, every alert produced by `send_alerts` is
written to the local output stream, and the printed lines do not depend
on the broker outcome of the publish attempts: no produced alert is
lost from the user's view even if network delivery fails. -/
theorem loop_prints_all_alerts (humidity temperature : Option ℚ) (sm li : ℚ)
    (pub pub' : String → Bool) (alerts : List String)
    (h : (send_alerts humidity temperature sm li).snd = some alerts) :
    (loopIteration humidity temperature sm li pub).fst =
      (send_alerts humidity temperature sm li).fst ++ alerts ∧
    (loopIteration humidity temperature sm li pub).fst =
      (loopIteration humidity temperature sm li pub').fst := by
  constructor
  · cases alerts with
    | nil => simp [loopIteration, h, truthyAlerts]
    | cons a as => simp [loopIteration, h, truthyAlerts]
  · cases alerts with
    | nil => simp [loopIteration, h, truthyAlerts]
    | cons a as => simp [loopIteration, h, truthyAlerts]

theorem loop_prints_all_alerts_witness :
    (send_alerts (some 40) (some 22) 400 (1/10)).snd =
      some [soilAlertMsg, lightAlertMsg] ∧
    ((loopIteration (some 40) (some 22) 400 (1/10) (fun _ => true)).fst =
      (send_alerts (some 40) (some 22) 400 (1/10)).fst ++ [soilAlertMsg, lightAlertMsg] ∧
    (loopIteration (some 40) (some 22) 400 (1/10) (fun _ => true)).fst =
      (loopIteration (some 40) (some 22) 400 (1/10) (fun _ => false)).fst) :=
  ⟨by rw [send_alerts_some]; norm_num [MOISTURE_THRESHOLD],
    loop_prints_all_alerts (some 40) (some 22) 400 (1/10) (fun _ => true) (fun _ => false)
      [soilAlertMsg, lightAlertMsg]
      (by rw [send_alerts_some]; norm_num [MOISTURE_THRESHOLD])⟩

/-- C9: when humidity or temperature is `None`, `send_alerts` prints the
failure message and returns `None`; the loop's truthiness guard then
publishes nothing to the broker for that iteration, so the diagnostic
reaches only the local output stream, never the broker topic. -/
theorem dht_failure_diag_only_local (humidity temperature : Option ℚ) (sm li : ℚ)
    (pub : String → Bool) (h : humidity = none ∨ temperature = none) :
    send_alerts humidity temperature sm li = ([dhtFailMsg], none) ∧
    loopIteration humidity temperature sm li pub = ([dhtFailMsg], []) := by
  have hs : send_alerts humidity temperature sm li = ([dhtFailMsg], none) := by
    rcases h with h | h
    · subst h; rfl
    · subst h; cases humidity <;> rfl
  exact ⟨hs, by simp [loopIteration, hs, truthyAlerts]⟩

theorem dht_failure_diag_only_local_witness :
    ((none : Option ℚ) = none ∨ (none : Option ℚ) = none) ∧
    (send_alerts none none 999 (1/100) = ([dhtFailMsg], none) ∧
     loopIteration none none 999 (1/100) (fun _ => true) = ([dhtFailMsg], [])) :=
  ⟨Or.inl rfl,
    dht_failure_diag_only_local none none 999 (1/100) (fun _ => true) (Or.inl rfl)⟩

/-- C10: all three threshold comparisons are strict: with both DHT
fields present, a reading exactly on a boundary (soil 300, temperature
15 or 30, light 0.2) produces no alert for that rule. -/
theorem boundary_values_no_alert (hv tv sm li : ℚ) :
    ∃ alerts, (send_alerts (some hv) (some tv) sm li).snd = some alerts ∧
      (sm = 300 → soilAlertMsg ∉ alerts) ∧
      ((tv = 15 ∨ tv = 30) → tempAlertMsg tv ∉ alerts) ∧
      (li = 1/5 → lightAlertMsg ∉ alerts) := by
  refine ⟨_, congrArg Prod.snd (send_alerts_some hv tv sm li), ?_, ?_, ?_⟩
  · intro he
    subst he
    have hM : ¬ (300:ℚ) > MOISTURE_THRESHOLD := by norm_num [MOISTURE_THRESHOLD]
    rw [if_neg hM]
    split_ifs <;> simp [soil_ne_tempMsg, soil_ne_light, tempAlertMsg]
  · intro he
    have hT : ¬ (tv < 15 ∨ tv > 30) := by
      rcases he with he | he <;> subst he <;> norm_num
    rw [if_neg hT]
    split_ifs <;> simp [tempMsg_ne_soil, tempMsg_ne_light, tempAlertMsg]
  · intro he
    subst he
    have hL : ¬ (1/5 : ℚ) < 1/5 := lt_irrefl _
    rw [if_neg hL]
    split_ifs <;> simp [light_ne_tempMsg, light_ne_soil, tempAlertMsg]

theorem boundary_values_no_alert_witness :
    ((300:ℚ) = 300) ∧ ((15:ℚ) = 15 ∨ (15:ℚ) = 30) ∧ ((1/5:ℚ) = 1/5) ∧
    (∃ alerts, (send_alerts (some 50) (some 15) 300 (1/5)).snd = some alerts ∧
      ((300:ℚ) = 300 → soilAlertMsg ∉ alerts) ∧
      (((15:ℚ) = 15 ∨ (15:ℚ) = 30) → tempAlertMsg 15 ∉ alerts) ∧
      ((1/5:ℚ) = 1/5 → lightAlertMsg ∉ alerts)) :=
  ⟨rfl, Or.inl rfl, rfl, boundary_values_no_alert 50 15 300 (1/5)⟩

end SmartPlant
